import Mathlib

/-! Verification of gettsim transfer and tax formulas.

Shallow embedding of the formulas in
`src/gettsim/transfers/rente.py`, `src/gettsim/transfers/grundsicherung.py`,
`src/src/_gettsim/taxes/zu_verst_eink/vorsorgeaufw.py` and
`src/src/_gettsim/social_insurance_contributions/beitr_bemess_grenzen.py`.

Python floats are modelled as rationals (`ℚ`); the claims under study concern
branch structure, `min`/`max` selection and clamping, not float rounding.
Pandas series operations that act pointwise are embedded record-wise; for the
frame-effect claim about input mutation, series are embedded as lists together
with explicit buffer-aliasing state (a function returns both its result and the
post-call contents of the input buffer, reflecting pandas assignment
semantics: binding `out = s` aliases the series `s`, and `out.loc[mask] = 0`
writes through the shared buffer, while `s.clip(...)` allocates a fresh one).
-/

namespace Gettsim

/-- Kinds of Python runtime errors raised by the embedded code. -/
inductive PyError where
  | typeError
deriving DecidableEq, Repr

/-- A Python value as far as `ges_rente_grenze_altersrente` manipulates one:
a float, a list of floats, or `None`. -/
inductive PyObj where
  | pyFloat (q : ℚ)
  | pyList (l : List ℚ)
  | pyNone
deriving DecidableEq, Repr

/-- Python `list.extend(arg)`: appends the elements of `arg` to the receiver and
evaluates to `None`.  When `arg` is not iterable (a float, or `None`), it raises
`TypeError`.  The result is the pair (new receiver contents, returned value). -/
def listExtend (l : List ℚ) : PyObj → Except PyError (List ℚ × PyObj)
  | PyObj.pyList xs => Except.ok (l ++ xs, PyObj.pyNone)
  | _ => Except.error PyError.typeError

/-- Python `min(arg)` over a non-empty list of floats; raises `TypeError` when
applied to `None` or to a float (neither is iterable). -/
def pyMin : PyObj → Except PyError ℚ
  | PyObj.pyList (x :: xs) => Except.ok (xs.foldl min x)
  | _ => Except.error PyError.typeError

/-- Modelled from the spec: the generic piecewise-polynomial evaluator
`gettsim.piecewise_functions.piecewise_polynomial`, whose source file is not
under `src/` (only its callers in `rente.py` are).  Spec 4.1: find the greatest
index `i` with `thresholds[i] ≤ x` and return
`intercepts[i] + rates[i] * (x - thresholds[i])`; the caller guarantees
`thresholds[0] = -∞`, so the first segment is taken when `x` is below every
later threshold. -/
def piecewise_polynomial (x : ℚ) : List ℚ → List ℚ → List ℚ → ℚ
  | _t :: t2 :: ts, _r :: rs, _c :: cs =>
      if x < t2 then _c + _r * (x - _t)
      else piecewise_polynomial x (t2 :: ts) rs cs
  | [t], [r], [c] => c + r * (x - t)
  | _, _, _ => 0

/-- The slice of `ges_rente_params` read by the embedded pension functions. -/
structure GesRenteParams where
  /-- Source key `zugangsfaktor_veränderung_pro_jahr.vorzeitiger_renteneintritt` -/
  vorzeitiger_renteneintritt : ℚ
  /-- Source key `zugangsfaktor_veränderung_pro_jahr.späterer_renteneintritt` -/
  spaeterer_renteneintritt : ℚ
  /-- Source key `regelaltersgrenze.thresholds` -/
  regelaltersgrenze_thresholds : List ℚ
  /-- Source key `regelaltersgrenze.rates` -/
  regelaltersgrenze_rates : List ℚ
  /-- Source key `regelaltersgrenze.intercepts_at_lower_thresholds` -/
  regelaltersgrenze_intercepts : List ℚ
  /-- Source key `altersrente_für_frauen.thresholds` -/
  altersrente_fuer_frauen_thresholds : List ℚ
  /-- Source key `altersrente_für_frauen.rates` -/
  altersrente_fuer_frauen_rates : List ℚ
  /-- Source key `altersrente_für_frauen.intercepts_at_lower_thresholds` -/
  altersrente_fuer_frauen_intercepts : List ℚ

/-- Embeds `rente.py` lines 216-279, `ges_rente_zugangsfaktor`: if `rentner`, let
`diff = (jahr_renteneintr - geburtsjahr) - ges_rente_regelaltersgrenze`; the
factor is `1 + diff * vorzeitig` when `diff < 0`, else `1 + diff * später`,
clamped from below at `0`; if not `rentner`, it is `0`. -/
def ges_rente_zugangsfaktor (geburtsjahr : ℤ) (rentner : Bool)
    (jahr_renteneintr : ℤ) (ges_rente_regelaltersgrenze : ℚ)
    (p : GesRenteParams) : ℚ :=
  if rentner then
    let alter_renteneintritt : ℚ := (jahr_renteneintr : ℚ) - (geburtsjahr : ℚ)
    let diff := alter_renteneintritt - ges_rente_regelaltersgrenze
    let out :=
      if diff < 0 then 1 + diff * p.vorzeitiger_renteneintritt
      else 1 + diff * p.spaeterer_renteneintritt
    max out 0
  else 0

/-- Embeds `rente.py` lines 50-91, `ges_rente_vor_grundr_m`: the base claim
`EP * ZF * Rw` when retired, else `0`. -/
def ges_rente_vor_grundr_m (ges_rente_zugangsfaktor entgeltp_update
    rentenwert : ℚ) (rentner : Bool) : ℚ :=
  if rentner then entgeltp_update * ges_rente_zugangsfaktor * rentenwert
  else 0

/-- Embeds `rente.py` lines 23-47, `ges_rente_nach_grundr_m`: base claim plus
Grundrente supplement when retired, else `0`. -/
def ges_rente_nach_grundr_m (ges_rente_vor_grundr_m grundr_zuschlag_m : ℚ)
    (rentner : Bool) : ℚ :=
  if rentner then ges_rente_vor_grundr_m + grundr_zuschlag_m else 0

/-- Embeds `rente.py` lines 282-304, `ges_rente_regelaltersgrenze`: piecewise
evaluation of the `regelaltersgrenze` spec at the birth year. -/
def ges_rente_regelaltersgrenze (geburtsjahr : ℤ) (p : GesRenteParams) : ℚ :=
  piecewise_polynomial (geburtsjahr : ℚ)
    p.regelaltersgrenze_thresholds p.regelaltersgrenze_rates
    p.regelaltersgrenze_intercepts

/-- Embeds `rente.py` lines 307-358, `ges_rente_grenze_altersrente`, embedded with
Python semantics.  The source computes `regelrente` and `pension_for_women`
(both floats), sets `thresholds_m = [regelrente]`, and then executes
`thresholds_w = thresholds_m.extend(pension_for_women)` unconditionally before
the gender branch.  `list.extend` of a float raises `TypeError` (a float is not
iterable), so the call fails for every input; even if the argument were
iterable, `extend` returns `None`, so the female branch would pass `None` to
`min`, which also raises `TypeError`. -/
def ges_rente_grenze_altersrente (geburtsjahr geburtsmonat geschlecht : ℤ)
    (p : GesRenteParams) : Except PyError ℚ := do
  let _regelrente := piecewise_polynomial (geburtsjahr : ℚ)
    p.regelaltersgrenze_thresholds p.regelaltersgrenze_rates
    p.regelaltersgrenze_intercepts
  let pension_for_women := piecewise_polynomial
    ((geburtsjahr : ℚ) + (geburtsmonat : ℚ) / 12)
    p.altersrente_fuer_frauen_thresholds p.altersrente_fuer_frauen_rates
    p.altersrente_fuer_frauen_intercepts
  let thresholds_m : List ℚ := [_regelrente]
  let extended ← listExtend thresholds_m (PyObj.pyFloat pension_for_women)
  let thresholds_w : PyObj := extended.2
  let thresholds : PyObj :=
    if geschlecht = 0 then PyObj.pyList extended.1 else thresholds_w
  pyMin thresholds

/-- Modelled from the spec (4.3), the intended behaviour of
`ges_rente_grenze_altersrente` that the source's docstring describes and the
spec states: the regular eligibility age for men, and the minimum of the
regular age and the women's-track piecewise value at
`birth_year + birth_month/12` for women. -/
def ges_rente_grenze_altersrente_spec (geburtsjahr geburtsmonat geschlecht : ℤ)
    (p : GesRenteParams) : ℚ :=
  let regelrente := piecewise_polynomial (geburtsjahr : ℚ)
    p.regelaltersgrenze_thresholds p.regelaltersgrenze_rates
    p.regelaltersgrenze_intercepts
  let pension_for_women := piecewise_polynomial
    ((geburtsjahr : ℚ) + (geburtsmonat : ℚ) / 12)
    p.altersrente_fuer_frauen_thresholds p.altersrente_fuer_frauen_rates
    p.altersrente_fuer_frauen_intercepts
  if geschlecht = 0 then regelrente else min regelrente pension_for_women

/-- Embeds `grundsicherung.py` lines 6-40, `grundsicherung_m_hh`, record-wise: the
clipped remaining need, forced to `0` when any priority flag is set, the person
is below the statutory pension age, or the adult count differs from the retiree
count.  All series operations in the source act pointwise. -/
def grundsicherung_m_hh (grundsicherung_m_minus_eink_hh : ℚ)
    (wohngeld_vorrang_hh kinderzuschlag_vorrang_hh
      wohngeld_kinderzuschlag_vorrang_hh : Bool)
    (regelaltersgrenze : ℚ) (alter : ℤ)
    (anz_erwachsene_hh anz_rentner_hh : ℤ) : ℚ :=
  let out := max grundsicherung_m_minus_eink_hh 0
  let cond := wohngeld_vorrang_hh || kinderzuschlag_vorrang_hh ||
    wohngeld_kinderzuschlag_vorrang_hh ||
    decide ((alter : ℚ) < regelaltersgrenze) ||
    decide (anz_erwachsene_hh ≠ anz_rentner_hh)
  if cond then 0 else out

/-- Embeds `grundsicherung.py` lines 89-124, `grundsicherung_eink`, record-wise: gross
transfer income minus the person's tax-unit income tax and solidarity
surcharge shares (per adult, per month), social-insurance contributions, the
exempt wage share and the Grundrente exemption, clipped at `0` from below.
`tu_id.replace(...)` broadcasts the tax-unit values to the person, so the
record-wise form takes the person's tax unit's totals directly.  (`ℚ` division
by zero is `0`; the claim's clamping property holds in every case.) -/
def grundsicherung_eink (arbeitsl_geld_2_brutto_eink eink_st_tu soli_st_tu : ℚ)
    (anz_erwachsene_tu : ℤ)
    (sozialv_beitr_m eink_anr_frei_grundsicherung
      freibetrag_grundsicherung_grundrente : ℚ) : ℚ :=
  max (arbeitsl_geld_2_brutto_eink
    - eink_st_tu / (anz_erwachsene_tu : ℚ) / 12
    - soli_st_tu / (anz_erwachsene_tu : ℚ) / 12
    - sozialv_beitr_m
    - eink_anr_frei_grundsicherung
    - freibetrag_grundsicherung_grundrente) 0

/-- Embeds `grundsicherung.py` lines 184-197, `freibetrag_vermögen_grundsicherung_hh`:
exempt wealth is `5000` per household member. -/
def freibetrag_vermoegen_grundsicherung_hh (haushaltsgroesse_hh : ℤ) : ℚ :=
  5000 * (haushaltsgroesse_hh : ℚ)

/-- Embeds `grundsicherung.py` lines 166-181,
`unter_vermögens_freibetrag_grundsicherung_hh`: strict comparison
`vermögen_hh < freibetrag`. -/
def unter_vermoegens_freibetrag_grundsicherung_hh
    (vermoegen_hh freibetrag_vermoegen_grundsicherung_hh : ℚ) : Bool :=
  decide (vermoegen_hh < freibetrag_vermoegen_grundsicherung_hh)

/-- Embeds `grundsicherung.py` lines 144-163,
`regelbedarf_m_grundsicherung_vermögens_check_hh`, record-wise: the basic-needs
amount is kept where the wealth test passes and set to `0` where it fails. -/
def regelbedarf_m_grundsicherung_vermoegens_check_hh (regelbedarf_m_hh : ℚ)
    (unter_vermoegens_freibetrag_grundsicherung_hh : Bool) : ℚ :=
  if unter_vermoegens_freibetrag_grundsicherung_hh then regelbedarf_m_hh else 0

/-- Embeds `grundsicherung.py` lines 144-163 embedded at series level with aliasing
state.  The source body is `out = regelbedarf_m_hh; out.loc[~unter] = 0;
return out`: the first binding aliases the input series, and the `.loc`
assignment writes `0` through the shared buffer.  The result is
(returned series, post-call contents of the `regelbedarf_m_hh` input buffer);
both components are the same buffer. -/
def regelbedarf_m_grundsicherung_vermoegens_check_hh_run
    (regelbedarf_m_hh : List ℚ)
    (unter_vermoegens_freibetrag_grundsicherung_hh : List Bool) :
    List ℚ × List ℚ :=
  let buffer := List.zipWith (fun r u => if u then r else 0)
    regelbedarf_m_hh unter_vermoegens_freibetrag_grundsicherung_hh
  (buffer, buffer)

/-- Embeds `grundsicherung.py` lines 6-40 embedded at series level with aliasing
state, the priority gate series precomputed (the `|` disjunctions allocate
fresh boolean buffers and touch no input).  The source body is
`out = minus.clip(lower=0); out.loc[cond] = 0; return out`: `clip` allocates a
fresh buffer, so the `.loc` assignment mutates only the new series and the
input buffer is returned unchanged as the post-call state. -/
def grundsicherung_m_hh_run (grundsicherung_m_minus_eink_hh : List ℚ)
    (cond : List Bool) : List ℚ × List ℚ :=
  (List.zipWith (fun m c => if c then 0 else max m 0)
    grundsicherung_m_minus_eink_hh cond,
   grundsicherung_m_minus_eink_hh)

/-- The slice of `eink_st_abzuege_params` read by the embedded deduction
functions. -/
structure EinkStAbzuegeParams where
  einfuehrungsfaktor_vorsorgeaufw_alter_ab_2005 : ℚ
  vorsorge_altersaufw_max : ℚ
  vorsorge_sonstige_aufw_max : ℚ
  vorsorge_kranken_minderung : ℚ
  vorsorge_2004_grundhoechstbetrag : ℚ
  vorsorge2004_vorwegabzug : ℚ
  vorsorge2004_kuerzung_vorwegabzug : ℚ

/-- Embeds `vorsorgeaufw.py` lines 4-41, `vorsorgeaufw_alter_tu`: phased pension
deduction `(factor * (2*public + private) - public) * 12`, capped from above at
`adults * vorsorge_altersaufw_max`; there is no lower clamp. -/
def vorsorgeaufw_alter_tu (ges_rentenv_beitr_m_tu priv_rentenv_beitr_m_tu : ℚ)
    (anz_erwachsene_tu : ℤ) (p : EinkStAbzuegeParams) : ℚ :=
  let out := (p.einfuehrungsfaktor_vorsorgeaufw_alter_ab_2005
    * (2 * ges_rentenv_beitr_m_tu + priv_rentenv_beitr_m_tu)
    - ges_rentenv_beitr_m_tu) * 12
  min out ((anz_erwachsene_tu : ℚ) * p.vorsorge_altersaufw_max)

/-- Embeds `vorsorgeaufw.py` lines 44-85, `_vorsorge_alternative_tu_ab_2005_bis_2009`:
other contributions (health + unemployment + care), annualised and capped at
`adults * vorsorge_sonstige_aufw_max`, plus the phased pension deduction. -/
def vorsorge_alternative_tu_ab_2005_bis_2009
    (vorsorgeaufw_alter_tu ges_krankenv_beitr_m_tu arbeitsl_v_beitr_m_tu
      ges_pflegev_beitr_m_tu : ℚ) (anz_erwachsene_tu : ℤ)
    (p : EinkStAbzuegeParams) : ℚ :=
  let sum_vorsorge := 12 * (ges_krankenv_beitr_m_tu + arbeitsl_v_beitr_m_tu
    + ges_pflegev_beitr_m_tu)
  let sum_capped := min sum_vorsorge
    ((anz_erwachsene_tu : ℚ) * p.vorsorge_sonstige_aufw_max)
  sum_capped + vorsorgeaufw_alter_tu

/-- Embeds `vorsorgeaufw.py` lines 88-112, `vorsorgeaufw_tu_ab_2005_bis_2009`: the
more favourable of the pre-2005 amount and the 2005 alternative. -/
def vorsorgeaufw_tu_ab_2005_bis_2009
    (vorsorge_alternative_tu_ab_2005_bis_2009 vorsorgeaufw_tu_bis_2004 : ℚ) :
    ℚ :=
  max vorsorgeaufw_tu_bis_2004 vorsorge_alternative_tu_ab_2005_bis_2009

/-- Embeds `vorsorgeaufw.py` lines 115-142, `vorsorgeaufw_tu_ab_2010_bis_2019`: the
more favourable of the pre-2005 amount and the post-2020 amount. -/
def vorsorgeaufw_tu_ab_2010_bis_2019
    (vorsorgeaufw_tu_bis_2004 vorsorgeaufw_tu_ab_2020 : ℚ) : ℚ :=
  max vorsorgeaufw_tu_bis_2004 vorsorgeaufw_tu_ab_2020

/-- Embeds `vorsorgeaufw.py` lines 145-197, `vorsorgeaufw_tu_ab_2020`: deductible
basic health/care contributions, the greater of the basic-health floor and the
capped sum of all other contributions, plus the phased pension deduction. -/
def vorsorgeaufw_tu_ab_2020 (vorsorgeaufw_alter_tu ges_pflegev_beitr_m_tu
    ges_krankenv_beitr_m_tu arbeitsl_v_beitr_m_tu : ℚ)
    (anz_erwachsene_tu : ℤ) (p : EinkStAbzuegeParams) : ℚ :=
  let basiskrankenversicherung := 12 * (ges_pflegev_beitr_m_tu
    + (1 - p.vorsorge_kranken_minderung) * ges_krankenv_beitr_m_tu)
  let sonst_vors_max := p.vorsorge_sonstige_aufw_max * (anz_erwachsene_tu : ℚ)
  let sonst_vors_before_basiskrankenv := min
    (12 * (arbeitsl_v_beitr_m_tu + ges_pflegev_beitr_m_tu
      + ges_krankenv_beitr_m_tu))
    sonst_vors_max
  let sonst_vors := max basiskrankenversicherung sonst_vors_before_basiskrankenv
  sonst_vors + vorsorgeaufw_alter_tu

/-- Embeds `vorsorgeaufw.py` lines 260-295, `_vorsorgeaufw_vom_lohn_tu_bis_2004`:
the Vorwegabzug base, halved-double for joint filers, reduced by
`kürzung * 12 * bruttolohn_m_tu`, clamped at `0` from below. -/
def vorsorgeaufw_vom_lohn_tu_bis_2004 (bruttolohn_m_tu : ℚ)
    (gemeinsam_veranlagt_tu : Bool) (p : EinkStAbzuegeParams) : ℚ :=
  let out :=
    if gemeinsam_veranlagt_tu then
      (1 / 2) * (2 * p.vorsorge2004_vorwegabzug
        - p.vorsorge2004_kuerzung_vorwegabzug * 12 * bruttolohn_m_tu)
    else
      p.vorsorge2004_vorwegabzug
        - p.vorsorge2004_kuerzung_vorwegabzug * 12 * bruttolohn_m_tu
  max out 0

/-- Concrete parameter set for the C5 scenario: early-retirement rate
`-0.036` per year, late rate `0.06` per year (piecewise specs unused). -/
def gesRenteParams₁ : GesRenteParams :=
  { vorzeitiger_renteneintritt := -36 / 1000
    spaeterer_renteneintritt := 6 / 100
    regelaltersgrenze_thresholds := []
    regelaltersgrenze_rates := []
    regelaltersgrenze_intercepts := []
    altersrente_fuer_frauen_thresholds := []
    altersrente_fuer_frauen_rates := []
    altersrente_fuer_frauen_intercepts := [] }

/-- Concrete parameter set for the C8 scenario (`vorwegabzug = 3068`,
`kürzung = 0.16`) and the C10 negative-deduction input
(`einführungsfaktor = 0.4`, `vorsorge_altersaufw_max = 10000`). -/
def einkStAbzuegeParams₁ : EinkStAbzuegeParams :=
  { einfuehrungsfaktor_vorsorgeaufw_alter_ab_2005 := 2 / 5
    vorsorge_altersaufw_max := 10000
    vorsorge_sonstige_aufw_max := 1500
    vorsorge_kranken_minderung := 4 / 100
    vorsorge_2004_grundhoechstbetrag := 1334
    vorsorge2004_vorwegabzug := 3068
    vorsorge2004_kuerzung_vorwegabzug := 16 / 100 }

/-- C1: for every input with `rentner = false`, the access factor
(`ges_rente_zugangsfaktor`), the base pension claim (`ges_rente_vor_grundr_m`)
and the claim including the supplement (`ges_rente_nach_grundr_m`) each return
exactly `0`, regardless of all other inputs. -/
theorem retirement_gate_c1 (geburtsjahr jahr_renteneintr : ℤ)
    (regelaltersgrenze : ℚ) (p : GesRenteParams)
    (zugangsfaktor entgeltp rentenwert vor_grundr zuschlag : ℚ) :
    ges_rente_zugangsfaktor geburtsjahr false jahr_renteneintr
      regelaltersgrenze p = 0 ∧
    ges_rente_vor_grundr_m zugangsfaktor entgeltp rentenwert false = 0 ∧
    ges_rente_nach_grundr_m vor_grundr zuschlag false = 0 :=
  ⟨rfl, rfl, rfl⟩

/-- C2 (code bug): contrary to the claim, `ges_rente_grenze_altersrente`
never returns a value for any sex: the unconditional
`thresholds_m.extend(pension_for_women)` raises `TypeError` on every input,
because a float is not iterable (and `extend` would return `None` anyway,
making `thresholds_w` into `None`).  The intended behaviour is
`ges_rente_grenze_altersrente_spec`. -/
theorem grenze_altersrente_crashes_c2
    (geburtsjahr geburtsmonat geschlecht : ℤ) (p : GesRenteParams) :
    ges_rente_grenze_altersrente geburtsjahr geburtsmonat geschlecht p
      = Except.error PyError.typeError := rfl

/-- C3: the household Grundsicherung benefit is exactly `0` whenever any
priority flag is set, the person's age is below the statutory pension age, or
the adult count differs from the retiree count — regardless of the remaining
income/wealth test result `grundsicherung_m_minus_eink_hh`. -/
theorem priority_zeroing_c3 (minus_eink : ℚ) (wg kz wgkz : Bool)
    (regelaltersgrenze : ℚ) (alter anz_erwachsene anz_rentner : ℤ)
    (h : wg = true ∨ kz = true ∨ wgkz = true ∨
      (alter : ℚ) < regelaltersgrenze ∨ anz_erwachsene ≠ anz_rentner) :
    grundsicherung_m_hh minus_eink wg kz wgkz regelaltersgrenze alter
      anz_erwachsene anz_rentner = 0 := by
  unfold grundsicherung_m_hh
  rcases h with h | h | h | h | h <;> simp [h]

/-- Witness for C3 at a concrete record: housing-benefit priority set, all
other gates inactive, positive remaining need. -/
theorem priority_zeroing_c3_witness :
    grundsicherung_m_hh 500 true false false 67 70 2 2 = 0 :=
  priority_zeroing_c3 500 true false false 67 70 2 2 (Or.inl rfl)

/-- C4: the exempt wealth threshold is `5000 ×` household size, the wealth test
passes exactly for wealth strictly below it, and wealth at or above the
threshold (including exact equality) zeroes the basic-needs amount. -/
theorem wealth_cliff_c4 (haushaltsgroesse : ℤ) (vermoegen regelbedarf : ℚ) :
    freibetrag_vermoegen_grundsicherung_hh haushaltsgroesse
      = 5000 * (haushaltsgroesse : ℚ) ∧
    (unter_vermoegens_freibetrag_grundsicherung_hh vermoegen
        (freibetrag_vermoegen_grundsicherung_hh haushaltsgroesse) = true ↔
      vermoegen < 5000 * (haushaltsgroesse : ℚ)) ∧
    (5000 * (haushaltsgroesse : ℚ) ≤ vermoegen →
      regelbedarf_m_grundsicherung_vermoegens_check_hh regelbedarf
        (unter_vermoegens_freibetrag_grundsicherung_hh vermoegen
          (freibetrag_vermoegen_grundsicherung_hh haushaltsgroesse)) = 0) := by
  refine ⟨rfl, ?_, fun h => ?_⟩
  · simp [unter_vermoegens_freibetrag_grundsicherung_hh,
      freibetrag_vermoegen_grundsicherung_hh]
  · simp [unter_vermoegens_freibetrag_grundsicherung_hh,
      freibetrag_vermoegen_grundsicherung_hh,
      regelbedarf_m_grundsicherung_vermoegens_check_hh, not_lt.mpr h]

/-- Witness for C4 at the spec scenario: household size `2`, wealth exactly
`10000` — the basic-needs amount `700` is zeroed. -/
theorem wealth_cliff_c4_witness :
    regelbedarf_m_grundsicherung_vermoegens_check_hh 700
      (unter_vermoegens_freibetrag_grundsicherung_hh 10000
        (freibetrag_vermoegen_grundsicherung_hh 2)) = 0 :=
  (wealth_cliff_c4 2 10000 700).2.2 (by norm_num)

/-- C5: for a retired person, with
`diff = (jahr_renteneintr - geburtsjahr) - regelaltersgrenze`, the access
factor is `max 0 (1 + diff * early_rate)` when `diff < 0` and
`max 0 (1 + diff * late_rate)` otherwise; and for every input (retired or not)
the access factor is nonnegative. -/
theorem zugangsfaktor_formula_c5 (geburtsjahr jahr_renteneintr : ℤ)
    (regelaltersgrenze : ℚ) (p : GesRenteParams) :
    ((jahr_renteneintr : ℚ) - (geburtsjahr : ℚ) - regelaltersgrenze < 0 →
      ges_rente_zugangsfaktor geburtsjahr true jahr_renteneintr
        regelaltersgrenze p
        = max 0 (1 + ((jahr_renteneintr : ℚ) - (geburtsjahr : ℚ)
            - regelaltersgrenze) * p.vorzeitiger_renteneintritt)) ∧
    (0 ≤ (jahr_renteneintr : ℚ) - (geburtsjahr : ℚ) - regelaltersgrenze →
      ges_rente_zugangsfaktor geburtsjahr true jahr_renteneintr
        regelaltersgrenze p
        = max 0 (1 + ((jahr_renteneintr : ℚ) - (geburtsjahr : ℚ)
            - regelaltersgrenze) * p.spaeterer_renteneintritt)) ∧
    (∀ rentner : Bool, 0 ≤ ges_rente_zugangsfaktor geburtsjahr rentner
      jahr_renteneintr regelaltersgrenze p) := by
  have e : ges_rente_zugangsfaktor geburtsjahr true jahr_renteneintr
      regelaltersgrenze p
      = max (if (jahr_renteneintr : ℚ) - (geburtsjahr : ℚ)
            - regelaltersgrenze < 0 then
          1 + ((jahr_renteneintr : ℚ) - (geburtsjahr : ℚ)
            - regelaltersgrenze) * p.vorzeitiger_renteneintritt
        else
          1 + ((jahr_renteneintr : ℚ) - (geburtsjahr : ℚ)
            - regelaltersgrenze) * p.spaeterer_renteneintritt) 0 := rfl
  refine ⟨fun h => ?_, fun h => ?_, fun rentner => ?_⟩
  · rw [e, if_pos h]
    exact max_comm _ 0
  · rw [e, if_neg (not_lt.mpr h)]
    exact max_comm _ 0
  · cases rentner
    · exact le_refl 0
    · rw [e]
      exact le_max_right _ 0

/-- Witness for C5 at the spec scenario: born `1955`, retiring `2020`,
regular age `65.6`, so `diff = -0.6 < 0` and the early-retirement branch
applies. -/
theorem zugangsfaktor_formula_c5_witness :
    ges_rente_zugangsfaktor 1955 true 2020 (328 / 5) gesRenteParams₁
      = max 0 (1 + ((2020 : ℚ) - (1955 : ℚ) - 328 / 5)
          * gesRenteParams₁.vorzeitiger_renteneintritt) :=
  (zugangsfaktor_formula_c5 1955 2020 (328 / 5) gesRenteParams₁).1
    (by norm_num)

/-- C6: the 2010–2019 deduction is exactly the max of the pre-2005 and
post-2020 results, the 2005–2009 deduction is exactly the max of the pre-2005
result and the 2005 alternative (capped other contributions plus the phased
pension deduction), and each selector's output dominates both of its named
sub-formula results. -/
theorem regime_max_c6 (bis2004 ab2020 alter kv av pv : ℚ) (anz : ℤ)
    (p : EinkStAbzuegeParams) :
    vorsorgeaufw_tu_ab_2010_bis_2019 bis2004 ab2020 = max bis2004 ab2020 ∧
    bis2004 ≤ vorsorgeaufw_tu_ab_2010_bis_2019 bis2004 ab2020 ∧
    ab2020 ≤ vorsorgeaufw_tu_ab_2010_bis_2019 bis2004 ab2020 ∧
    vorsorgeaufw_tu_ab_2005_bis_2009
        (vorsorge_alternative_tu_ab_2005_bis_2009 alter kv av pv anz p)
        bis2004
      = max bis2004 (min (12 * (kv + av + pv))
          ((anz : ℚ) * p.vorsorge_sonstige_aufw_max) + alter) ∧
    bis2004 ≤ vorsorgeaufw_tu_ab_2005_bis_2009
      (vorsorge_alternative_tu_ab_2005_bis_2009 alter kv av pv anz p)
      bis2004 ∧
    vorsorge_alternative_tu_ab_2005_bis_2009 alter kv av pv anz p ≤
      vorsorgeaufw_tu_ab_2005_bis_2009
        (vorsorge_alternative_tu_ab_2005_bis_2009 alter kv av pv anz p)
        bis2004 :=
  ⟨rfl, le_max_left _ _, le_max_right _ _, rfl, le_max_left _ _,
    le_max_right _ _⟩

/-- C7: for every input record, the countable income `grundsicherung_eink` and
the household benefit `grundsicherung_m_hh` are total (the embedding returns a
value for every input) and nonnegative: both clamp negative intermediate
results to zero instead of failing. -/
theorem clamping_nonneg_c7 (brutto eink_st soli : ℚ) (anz_erwachsene_tu : ℤ)
    (sozialv frei grundr_frei minus_eink : ℚ) (wg kz wgkz : Bool)
    (regelaltersgrenze : ℚ) (alter anz_erwachsene_hh anz_rentner_hh : ℤ) :
    0 ≤ grundsicherung_eink brutto eink_st soli anz_erwachsene_tu sozialv
      frei grundr_frei ∧
    0 ≤ grundsicherung_m_hh minus_eink wg kz wgkz regelaltersgrenze alter
      anz_erwachsene_hh anz_rentner_hh := by
  constructor
  · exact le_max_right _ 0
  · simp only [grundsicherung_m_hh]
    split
    · exact le_refl 0
    · exact le_max_right _ 0

/-- C8: for a single-filing tax unit the wage-deduction base is
`max (vorwegabzug - kuerzung * 12 * bruttolohn_m_tu) 0`, and at the spec
scenario (`vorwegabzug = 3068`, `kuerzung = 0.16`, `bruttolohn_m = 2000`) it is
exactly `0`. -/
theorem vom_lohn_single_c8 (bruttolohn_m_tu : ℚ) (p : EinkStAbzuegeParams) :
    vorsorgeaufw_vom_lohn_tu_bis_2004 bruttolohn_m_tu false p
      = max (p.vorsorge2004_vorwegabzug
          - p.vorsorge2004_kuerzung_vorwegabzug * 12 * bruttolohn_m_tu) 0 ∧
    (p.vorsorge2004_vorwegabzug = 3068 →
      p.vorsorge2004_kuerzung_vorwegabzug = 16 / 100 →
      vorsorgeaufw_vom_lohn_tu_bis_2004 2000 false p = 0) := by
  constructor
  · rfl
  · intro h1 h2
    unfold vorsorgeaufw_vom_lohn_tu_bis_2004
    rw [if_neg (by simp), h1, h2]
    norm_num

/-- Witness for C8 with the concrete parameter set: the base is `0` because
`3068 - 0.16 * 12 * 2000 = -772 < 0`. -/
theorem vom_lohn_single_c8_witness :
    vorsorgeaufw_vom_lohn_tu_bis_2004 2000 false einkStAbzuegeParams₁ = 0 :=
  (vom_lohn_single_c8 2000 einkStAbzuegeParams₁).2 rfl rfl

/-- C9 fails as stated: `regelbedarf_m_grundsicherung_vermoegens_check_hh`
aliases its input series and zeroes failing households in place, so an input
series `[100]` for a household that fails the wealth test is `[0]` — not
`[100]` — after the call. -/
theorem no_mutation_c9_counterexample :
    (regelbedarf_m_grundsicherung_vermoegens_check_hh_run [100] [false]).2
      ≠ [100] := by
  simp [regelbedarf_m_grundsicherung_vermoegens_check_hh_run]

/-- C9 amended: `grundsicherung_m_hh` does leave its input series unchanged
(its `clip` allocates a fresh buffer), but
`regelbedarf_m_grundsicherung_vermoegens_check_hh` returns an alias of its
input buffer: after the call the input series equals the returned masked
series, i.e. it is zeroed in place exactly at households failing the wealth
test. -/
theorem no_mutation_c9_amended (minus_eink : List ℚ) (cond : List Bool)
    (regelbedarf : List ℚ) (unter : List Bool) :
    (grundsicherung_m_hh_run minus_eink cond).2 = minus_eink ∧
    (regelbedarf_m_grundsicherung_vermoegens_check_hh_run regelbedarf
      unter).2
      = (regelbedarf_m_grundsicherung_vermoegens_check_hh_run regelbedarf
          unter).1 ∧
    (regelbedarf_m_grundsicherung_vermoegens_check_hh_run regelbedarf
      unter).2
      = List.zipWith (fun r u => if u then r else 0) regelbedarf unter :=
  ⟨rfl, rfl, rfl⟩

/-- C10: `vorsorgeaufw_alter_tu` is capped above by
`anz_erwachsene_tu * vorsorge_altersaufw_max` for every input, and it has no
zero floor: at the concrete input where the phase-in factor times
`2 * public + private` (`0.4 * 2000 = 800`) falls below the public
contribution (`1000`), the deduction is strictly negative. -/
theorem alter_tu_cap_and_negative_c10 :
    (∀ (ges priv : ℚ) (anz : ℤ) (p : EinkStAbzuegeParams),
      vorsorgeaufw_alter_tu ges priv anz p
        ≤ (anz : ℚ) * p.vorsorge_altersaufw_max) ∧
    einkStAbzuegeParams₁.einfuehrungsfaktor_vorsorgeaufw_alter_ab_2005
      * (2 * 1000 + 0) < 1000 ∧
    vorsorgeaufw_alter_tu 1000 0 1 einkStAbzuegeParams₁ < 0 := by
  refine ⟨fun ges priv anz p => min_le_right _ _, ?_, ?_⟩
  · norm_num [einkStAbzuegeParams₁]
  · norm_num [vorsorgeaufw_alter_tu, einkStAbzuegeParams₁]

end Gettsim
